import Mathlib

/-!
Verification of the stage-pipeline orchestrator of the greenwashing-detective
repository.

The development shallowly embeds the Python sources:
* `src/recovery_utils.py` — the Stage Artifact Checker and the Resume Planner
  (`check_pdf_exists`, `check_json_valid`, `check_stage_completion`,
  `determine_resume_point`);
* `app.py` — the Active-Job Registry (`mark_processing_start` /
  `mark_processing_end`), the temp-file cleanup (`cleanup_temp_files`) and the
  Pipeline Orchestrator's analysis run (the `run_analysis` block of
  `query_company`).

The filesystem is modelled as an explicit read interface (`FileSystem`):
`files` gives each path's state (absent, unreadable, syntactically invalid
JSON, or a parsed JSON value) and `glob` gives the match list `glob.glob`
returns for a pattern.  Python JSON values are the inductive `PyJson`; only
the structure inspected by the code (list / dict / other, and emptiness)
matters.  All definitions are computable, so concrete runs evaluate.
-/

set_option maxHeartbeats 1000000
set_option linter.unusedVariables false

namespace GWD

/-- A Python JSON value as returned by `json.load`. -/
inductive PyJson where
  | list (xs : List PyJson)
  | dict (kvs : List (String × PyJson))
  | str (s : String)
  | num (n : Int)
  | bool (b : Bool)
  | null

/-- The state of one path in the filesystem, as observed by the checkers:
the file may be absent, opening/reading it may raise (`unreadable`),
`json.load` may raise a `JSONDecodeError` (`invalid`, which also covers a
readable-but-empty file, whose empty text is not valid JSON), or the file
parses to a JSON value. -/
inductive FileState where
  | absent
  | unreadable (err : String)
  | invalid (err : String)
  | jsonVal (v : PyJson)

/-- A snapshot of the filesystem: per-path state plus the result `glob.glob`
yields for a pattern.  The checkers only read; they never write. -/
structure FileSystem where
  files : String → FileState
  glob : String → List String

/-- `os.path.exists`. -/
def pathExists (fs : FileSystem) (p : String) : Bool :=
  match fs.files p with
  | .absent => false
  | _ => true

/-- The glob pattern for the downloaded report,
`PATHS['ESG_REPORTS'] + f'{year}_{company_code}_*.pdf'`
(`recovery_utils.check_pdf_exists`). -/
def pdfPattern (year : Int) (company_code : String) : String :=
  "temp_data/esgReport/" ++ toString year ++ "_" ++ company_code ++ "_*.pdf"

/-- Modelled from the spec: the configuration module providing `PATHS` and
`get_file_path` is not among the provided sources (the shipped `config.py`
holds only a prompt/timeout loader).  The recovery module's header documents
each stage's artifact location — Stage 2: `temp_data/prompt1_json/
{year}_{company_code}_p1.json`, Stage 3: `temp_data/news_output/..._news.json`,
Stage 4: `temp_data/prompt2_json/..._p2.json`, Stage 5:
`temp_data/prompt3_json/..._p3.json` — and `app.py` builds the P3 path the
same way. -/
def get_file_path (kind : String) (year : Int) (company_code : String) : String :=
  let base := toString year ++ "_" ++ company_code
  if kind = "P1_JSON" then "temp_data/prompt1_json/" ++ base ++ "_p1.json"
  else if kind = "NEWS_JSON" then "temp_data/news_output/" ++ base ++ "_news.json"
  else if kind = "P2_JSON" then "temp_data/prompt2_json/" ++ base ++ "_p2.json"
  else if kind = "P3_JSON" then "temp_data/prompt3_json/" ++ base ++ "_p3.json"
  else ""

/-- `recovery_utils.check_pdf_exists`: glob for the report pattern; the first
match wins. -/
def check_pdf_exists (fs : FileSystem) (year : Int) (company_code : String) :
    Bool × String :=
  match fs.glob (pdfPattern year company_code) with
  | m :: _ => (true, m)
  | [] => (false, "PDF 不存在: " ++ pdfPattern year company_code)

/-- `recovery_utils.check_json_valid`: a missing file, a read error, a JSON
parse error, and an empty (or non-container) parsed value all yield
`(False, message)`; only a non-empty list or dict is valid.  The Python
function catches every exception, so the embedding is a total function. -/
def check_json_valid (fs : FileSystem) (file_path : String) : Bool × String :=
  match fs.files file_path with
  | .absent => (false, "檔案不存在: " ++ file_path)
  | .unreadable e => (false, "讀取失敗: " ++ e)
  | .invalid e => (false, "JSON 解析失敗: " ++ e)
  | .jsonVal v =>
    match v with
    | .list xs =>
      if xs.length > 0 then (true, "有效 JSON (" ++ toString xs.length ++ " 筆資料)")
      else (false, "JSON 內容為空")
    | .dict kvs =>
      if kvs.length > 0 then (true, "有效 JSON (物件)")
      else (false, "JSON 內容為空")
    | _ => (false, "JSON 內容為空")

/-- `recovery_utils.check_stage_completion`: per-stage completion probe
returning `(completed, path, message)`; `stage6` is always incomplete (the
database is checked elsewhere) and an unknown stage name reports
`未知階段`. -/
def check_stage_completion (fs : FileSystem) (year : Int) (company_code : String)
    (stage : String) : Bool × String × String :=
  if stage = "stage1" then
    let r := check_pdf_exists fs year company_code
    (r.1, if r.1 then r.2 else "", r.2)
  else if stage = "stage2" then
    let p1_path := get_file_path "P1_JSON" year company_code
    let r := check_json_valid fs p1_path
    (r.1, if r.1 then p1_path else "", r.2)
  else if stage = "stage3" then
    let news_path := get_file_path "NEWS_JSON" year company_code
    let r := check_json_valid fs news_path
    (r.1, if r.1 then news_path else "", r.2)
  else if stage = "stage4" then
    let p2_path := get_file_path "P2_JSON" year company_code
    let r := check_json_valid fs p2_path
    (r.1, if r.1 then p2_path else "", r.2)
  else if stage = "stage5" then
    let p3_path := get_file_path "P3_JSON" year company_code
    let r := check_json_valid fs p3_path
    (r.1, if r.1 then p3_path else "", r.2)
  else if stage = "stage6" then
    (false, "", "Stage 6 需在資料庫層檢查")
  else
    (false, "", "未知階段: " ++ stage)

/-- One entry of the stage-completion report. -/
structure StageDetail where
  completed : Bool
  path : String
  msg : String
deriving DecidableEq, Repr

/-- Result of `determine_resume_point`. -/
structure ResumeResult where
  resume_from : String
  completed_stages : List String
  stage_details : List (String × StageDetail)
deriving DecidableEq, Repr

/-- The fixed stage order used by the Resume Planner. -/
def stagesList : List String :=
  ["stage1", "stage2", "stage3", "stage4", "stage5", "stage6"]

/-- `recovery_utils.determine_resume_point`: run the checker over all stages
in order, collect the completed ones, and pick the first stage not completed
(`stage6` if the loop finds none, mirroring the `for … else`).  The
`current_status` argument is accepted, as in the source, but never used. -/
def determine_resume_point (fs : FileSystem) (year : Int) (company_code : String)
    (current_status : String) : ResumeResult :=
  let details := stagesList.map (fun s =>
    let r := check_stage_completion fs year company_code s
    (s, StageDetail.mk r.1 r.2.1 r.2.2))
  let completed := (details.filter (fun x => x.2.completed)).map (fun x => x.1)
  let resume :=
    match stagesList.find? (fun s => !(completed.contains s)) with
    | some s => s
    | none => "stage6"
  { resume_from := resume, completed_stages := completed, stage_details := details }

/-!
## The Orchestrator (`app.py`, `query_company`'s analysis run)

The run is driven synchronously; every externally observable action of the
orchestrator is recorded as an `Event` in order.  The Active-Job Registry
(`ACTIVE_PROCESSING`) is recovered from the event trace: `markStart` mirrors
`mark_processing_start(esg_id)` and `markEnd` mirrors
`mark_processing_end(esg_id)` for the one job of the run.
-/

/-- An observable action of one orchestrator run. -/
inductive Event where
  | statusUpdate (status : String)
  | markStart
  | markEnd
  | callDownload
  | callWordcloud
  | callAnalysis
  | callNews
  | callVerify
  | callPplx
  | callInsert
  | runCleanup
deriving DecidableEq, Repr

/-- Whether the Active-Job Registry still holds this job's entry after the
events of the run (initially absent; `markStart` inserts, `markEnd`
deletes). -/
def activeAfter (evs : List Event) : Bool :=
  evs.foldl (fun b e =>
    match e with
    | .markStart => true
    | .markEnd => false
    | _ => b) false

/-- The JSON body `query_company` returns, with its HTTP code. -/
structure Outcome where
  status : String
  message : String
  httpCode : Nat
deriving DecidableEq, Repr

/-- Result dict of the word-cloud collaborator. -/
structure WordcloudResult where
  success : Bool
  skipped : Bool
  word_count : Nat

/-- Result dict of the news / verification / source-check collaborators:
only the fields the orchestrator reads. -/
structure SubResult where
  success : Bool
  skipped : Bool
  error : String

/-- Result dict of `analyze_esg_report`; `url` is the value behind the
`'url'` key (`none` when the key is missing, read via `.get`). -/
structure AnalysisResult where
  url : Option String

/-- Behaviour of the external collaborators and of the filesystem during one
orchestrator run.  An `Except.error` value models the collaborator raising. -/
structure Env where
  fs : FileSystem
  download : Bool × String
  wordcloud : Except String WordcloudResult
  analysis : Except String AnalysisResult
  news : Except String SubResult
  verify : Except String SubResult
  pplx : Except String SubResult
  insert : Bool × String
  finalQueryCompleted : Bool
  companyName : String
  industry : String
  removeFails : String → Bool

/-- The five temp files `cleanup_temp_files` targets (`app.py`, lines
24-39): the report PDF under its canonical name and the four intermediate
JSON files. -/
def cleanupTargets (year : Int) (company_code company_name : String) :
    List String :=
  [ "temp_data/esgReport/" ++ toString year ++ "_" ++ company_code ++ "_" ++
      company_name ++ "_永續報告書.pdf",
    "temp_data/prompt1_json/" ++ toString year ++ "_" ++ company_code ++ "_p1.json",
    "temp_data/news_output/" ++ toString year ++ "_" ++ company_code ++ "_news.json",
    "temp_data/prompt2_json/" ++ toString year ++ "_" ++ company_code ++ "_p2.json",
    "temp_data/prompt3_json/" ++ toString year ++ "_" ++ company_code ++ "_p3.json" ]

/-- One iteration of the cleanup loop: `if os.path.exists(p): os.remove(p)`
inside `try/except`.  A failing `os.remove` (modelled by `rf p = true`)
leaves the file and logs a warning; success logs the deletion. -/
def removeOne (fs : FileSystem) (rf : String → Bool) (p : String) :
    FileSystem × List String :=
  if pathExists fs p then
    if rf p then
      (fs, ["⚠️ 無法刪除 " ++ p])
    else
      ({ fs with files := fun q => if q = p then .absent else fs.files q },
       ["✅ 已刪除: " ++ p])
  else
    (fs, [])

/-- The `for file_path in file_targets` loop of `cleanup_temp_files`. -/
def cleanupLoop (rf : String → Bool) : FileSystem → List String →
    FileSystem × List String
  | fs, [] => (fs, [])
  | fs, p :: ps =>
    let r := removeOne fs rf p
    let rest := cleanupLoop rf r.1 ps
    (rest.1, r.2 ++ rest.2)

/-- `app.cleanup_temp_files`: delete every stage's temp artifact; each
deletion attempt is individually guarded, so the function is total and
returns the surviving filesystem together with its log lines. -/
def cleanup_temp_files (fs : FileSystem) (rf : String → Bool) (year : Int)
    (company_code company_name : String) : FileSystem × List String :=
  cleanupLoop rf fs (cleanupTargets year company_code company_name)

/-- Result of one orchestrator run: the returned outcome, the ordered event
trace, and the filesystem left behind. -/
structure RunOut where
  outcome : Outcome
  events : List Event
  fs : FileSystem

/-- Steps 7-9 of the run (`app.py` lines 591-676) plus the surrounding
`except` handler (lines 678-687): read the P3 JSON, insert the analysis
results, mark completed, read back, clean up and return.

Faithful control-flow notes:
* a missing P3 file returns the `failed` outcome directly (lines 603-611)
  **without** `mark_processing_end`;
* an unreadable or unparseable P3 file makes `open`/`json.load` raise, which
  lands in the outer `except` (status `failed`, `mark_processing_end`,
  generic error message);
* `analysis_result.get('url', …)` raises `AttributeError` when
  `analysis_result` is `None` (the extraction thread died), again landing in
  the outer `except`;
* a failed insert returns `failed` (lines 626-632) without
  `mark_processing_end`;
* a read-back that is not `completed` returns the error outcome (lines
  671-676) without `mark_processing_end`;
* only the fully successful branch runs `cleanup_temp_files` and
  `mark_processing_end` before returning `completed`. -/
def stage6Part (env : Env) (year : Int) (company_code : String)
    (analysis_result : Option AnalysisResult) (ev : List Event) : RunOut :=
  let ev := ev ++ [Event.statusUpdate "stage6"]
  let p3_path := "temp_data/prompt3_json/" ++ toString year ++ "_" ++
    company_code ++ "_p3.json"
  match env.fs.files p3_path with
  | .absent =>
    { outcome := ⟨"failed",
        "分析流程未完成：找不到 P3 JSON 檔案 (" ++ p3_path ++ ")。請確認 Step 5 和 Step 6 已成功執行。",
        500⟩,
      events := ev ++ [Event.statusUpdate "failed"],
      fs := env.fs }
  | .unreadable e =>
    { outcome := ⟨"failed", "處理過程發生錯誤: " ++ e, 500⟩,
      events := ev ++ [Event.statusUpdate "failed", Event.markEnd],
      fs := env.fs }
  | .invalid e =>
    { outcome := ⟨"failed", "處理過程發生錯誤: " ++ e, 500⟩,
      events := ev ++ [Event.statusUpdate "failed", Event.markEnd],
      fs := env.fs }
  | .jsonVal _ =>
    match analysis_result with
    | none =>
      { outcome := ⟨"failed",
          "處理過程發生錯誤: 'NoneType' object has no attribute 'get'", 500⟩,
        events := ev ++ [Event.statusUpdate "failed", Event.markEnd],
        fs := env.fs }
    | some ar =>
      let report_url := ar.url.getD
        ("https://mops.twse.com.tw/mops/web/t100sb07_" ++ toString year)
      let ev := ev ++ [Event.callInsert]
      if env.insert.1 = false then
        { outcome := ⟨"failed", "插入分析結果失敗: " ++ env.insert.2, 500⟩,
          events := ev ++ [Event.statusUpdate "failed"],
          fs := env.fs }
      else
        let ev := ev ++ [Event.statusUpdate "completed"]
        if env.finalQueryCompleted then
          let cleaned := cleanup_temp_files env.fs env.removeFails year
            company_code env.companyName
          { outcome := ⟨"completed", "自動抓取與分析完成", 200⟩,
            events := ev ++ [Event.runCleanup, Event.markEnd],
            fs := cleaned.1 }
        else
          { outcome := ⟨"error", "分析完成但資料查詢失敗", 500⟩,
            events := ev,
            fs := env.fs }

/-- Stages 2-5 of the run (`app.py` lines 441-589), then `stage6Part`.

Stage 2 (`resume_from in ['stage1','stage2']`) is the concurrent unit: the
word-cloud thread catches its own exceptions; the AI thread's body ends in
`raise`, but an exception raised inside a `threading.Thread` target is
delivered to `threading.excepthook` and is **not** re-raised at
`ai_thread.join()` — the joining orchestrator merely observes that
`analysis_result` is still `None`.  When stage 2 is skipped the source sets
`analysis_result = {'url': ''}`.

Stages 3, 4 and 5 each wrap their collaborator in `try/except` and only
print on a failure result or an exception, so the trace records the status
update and the call, and execution always falls through. -/
def restAfterStage1 (env : Env) (year : Int) (company_code resume_from : String)
    (ev : List Event) : RunOut :=
  let stage2 :=
    if resume_from = "stage1" ∨ resume_from = "stage2" then
      (env.analysis.toOption,
       ev ++ [Event.statusUpdate "stage2", Event.callWordcloud, Event.callAnalysis])
    else
      (some { url := some "" }, ev)
  let analysis_result := stage2.1
  let ev := stage2.2
  let ev :=
    if resume_from ∈ (["stage1", "stage2", "stage3"] : List String) then
      ev ++ [Event.statusUpdate "stage3", Event.callNews]
    else ev
  let ev :=
    if resume_from ∈ (["stage1", "stage2", "stage3", "stage4"] : List String) then
      ev ++ [Event.statusUpdate "stage4", Event.callVerify]
    else ev
  let ev :=
    if resume_from ∈ (["stage1", "stage2", "stage3", "stage4", "stage5"] : List String) then
      ev ++ [Event.statusUpdate "stage5", Event.callPplx]
    else ev
  stage6Part env year company_code analysis_result ev

/-- The analysis run of `query_company` (`app.py` lines 413-694), entered
with the resume point already determined: `mark_processing_start`, then
stage 1 (`resume_from in ['stage1']`); a failed download sets status
`failed`, releases the registry entry and returns the failure outcome;
otherwise stages 2-6 follow. -/
def runAnalysis (env : Env) (year : Int) (company_code resume_from : String) :
    RunOut :=
  let ev := [Event.markStart]
  if resume_from = "stage1" then
    let ev := ev ++ [Event.statusUpdate "stage1", Event.callDownload]
    if env.download.1 = false then
      { outcome := ⟨"failed", "下載失敗: " ++ env.download.2, 500⟩,
        events := ev ++ [Event.statusUpdate "failed", Event.markEnd],
        fs := env.fs }
    else
      restAfterStage1 env year company_code resume_from ev
  else
    restAfterStage1 env year company_code resume_from ev

/-!
## Concrete filesystem snapshots used in the scenario theorems
-/

/-- A concrete downloaded-report path for job (2024, "2330"). -/
def samplePdfPath : String := "temp_data/esgReport/2024_2330_台積電_永續報告書.pdf"

/-- Snapshot for job (2024, "2330") with every stage artifact present and
valid: the PDF matches the report glob and the four intermediate JSON files
each hold a non-empty list. -/
def fsAll : FileSystem where
  files := fun p =>
    if p = get_file_path "P1_JSON" 2024 "2330" then .jsonVal (.list [.null])
    else if p = get_file_path "NEWS_JSON" 2024 "2330" then .jsonVal (.list [.null])
    else if p = get_file_path "P2_JSON" 2024 "2330" then .jsonVal (.list [.null])
    else if p = get_file_path "P3_JSON" 2024 "2330" then .jsonVal (.list [.null])
    else .absent
  glob := fun pat => if pat = pdfPattern 2024 "2330" then [samplePdfPath] else []

/-- `fsAll` with only the stage-3 artifact (the news JSON) deleted. -/
def fsDel3 : FileSystem where
  files := fun p =>
    if p = get_file_path "NEWS_JSON" 2024 "2330" then .absent
    else fsAll.files p
  glob := fsAll.glob

/-- Snapshot where the report PDF is missing but the stage-2 artifact is
valid (used to witness the never-skip property). -/
def fsSkipW : FileSystem where
  files := fun p =>
    if p = get_file_path "P1_JSON" 2024 "2330" then .jsonVal (.list [.null])
    else .absent
  glob := fun _ => []

/-- Snapshot where every file read fails with an OS error. -/
def fsBad : FileSystem where
  files := fun _ => .unreadable "Errno 13"
  glob := fun _ => []

/-!
## Concrete collaborator environments used in the orchestrator theorems
-/

/-- Fresh run of job (2024, "2330") in which the mandatory extraction
collaborator raises: the download succeeds, `analyze_esg_report` raises a
`RuntimeError`, the soft stages behave normally, and no P3 file ever
appears (`fsSkipW` holds no P3 artifact). -/
def envExtractFail : Env where
  fs := fsSkipW
  download := (true, samplePdfPath)
  wordcloud := .ok ⟨true, false, 10⟩
  analysis := .error "RuntimeError: AI 分析過程發生錯誤"
  news := .ok ⟨true, false, ""⟩
  verify := .ok ⟨false, false, "P1 JSON 不存在"⟩
  pplx := .ok ⟨false, false, "P2 JSON 不存在"⟩
  insert := (true, "")
  finalQueryCompleted := true
  companyName := "台積電"
  industry := "半導體業"
  removeFails := fun _ => false

/-- Run that reaches stage 6 with the P3 file missing (soft stages burned
through without producing it) while extraction itself succeeded. -/
def envP3Missing : Env :=
  { envExtractFail with analysis := .ok ⟨some "https://example.com/r.pdf"⟩ }

/-- Fully healthy run over `fsAll` (all artifacts on disk, P3 valid). -/
def envHappy : Env :=
  { envP3Missing with
      fs := fsAll
      news := .ok ⟨true, false, ""⟩
      verify := .ok ⟨true, false, ""⟩
      pplx := .ok ⟨true, false, ""⟩ }

/-- Healthy run whose database insert fails (e.g. constraint violation). -/
def envInsertFail : Env :=
  { envHappy with insert := (false, "Duplicate entry") }

/-- Run whose download collaborator fails. -/
def envDownloadFail : Env :=
  { envExtractFail with download := (false, "404 Not Found") }

/-- Healthy run whose news-search collaborator raises. -/
def envNewsFail : Env :=
  { envHappy with news := .error "ConnectionError" }

/-!
## Resume Planner lemmas
-/

/-- `find?` over a list characterises the Python `for … else` search of
`determine_resume_point`: if some element at index `i` fails `p`, then the
first element failing `p` sits at an index `≤ i`. -/
theorem find_first_failure_le {α : Type} (p : α → Bool) :
    ∀ (l : List α) (i : Nat) (a : α), l.get? i = some a → p a = false →
      ∃ k b, k ≤ i ∧ l.get? k = some b ∧ p b = false ∧
        l.find? (fun x => !p x) = some b := by
  intro l
  induction l with
  | nil => intro i a h _; simp at h
  | cons x xs ih =>
    intro i a h hpa
    by_cases hx : p x = true
    · cases i with
      | zero =>
        simp at h
        subst h
        rw [hx] at hpa
        cases hpa
      | succ i =>
        simp only [List.get?_cons_succ] at h
        obtain ⟨k, b, hk, hget, hpb, hfind⟩ := ih i a h hpa
        refine ⟨k + 1, b, Nat.succ_le_succ hk, by simpa using hget, hpb, ?_⟩
        simp [List.find?, hx, hfind]
    · have hx' : p x = false := by simpa using hx
      exact ⟨0, x, Nat.zero_le i, rfl, hx', by simp [List.find?, hx']⟩

/-- If the element at index `i` fails `p` and every earlier element passes
`p`, then `find?` for a failure returns exactly that element. -/
theorem find_first_failure_eq {α : Type} (p : α → Bool) :
    ∀ (l : List α) (i : Nat) (a : α), l.get? i = some a → p a = false →
      (∀ k b, k < i → l.get? k = some b → p b = true) →
      l.find? (fun x => !p x) = some a := by
  intro l
  induction l with
  | nil => intro i a h _ _; simp at h
  | cons x xs ih =>
    intro i a h hpa hpre
    cases i with
    | zero =>
      simp at h
      subst h
      simp [List.find?, hpa]
    | succ i =>
      simp only [List.get?_cons_succ] at h
      have hx : p x = true := hpre 0 x (Nat.succ_pos i) rfl
      have hrest := ih i a h hpa
        (fun k b hk hget => hpre (k + 1) b (Nat.succ_lt_succ hk) (by simpa using hget))
      simp [List.find?, hx, hrest]

/-- The Resume Planner's `resume_from` is the first stage, in the fixed
order, whose checker reports incomplete (with `"stage6"` as the `for…else`
default). -/
theorem resume_eq_find (fs : FileSystem) (year : Int) (code status : String) :
    (determine_resume_point fs year code status).resume_from
      = ((stagesList.find?
          (fun s => !(check_stage_completion fs year code s).1)).getD "stage6") := by
  cases h1 : (check_stage_completion fs year code "stage1").1 <;>
  cases h2 : (check_stage_completion fs year code "stage2").1 <;>
  cases h3 : (check_stage_completion fs year code "stage3").1 <;>
  cases h4 : (check_stage_completion fs year code "stage4").1 <;>
  cases h5 : (check_stage_completion fs year code "stage5").1 <;>
  cases h6 : (check_stage_completion fs year code "stage6").1 <;>
    simp [determine_resume_point, stagesList, h1, h2, h3, h4, h5, h6]

/-- A non-empty string prefix keeps any append non-empty. -/
theorem append_left_ne_empty (a b : String) (h : a.length ≠ 0) : a ++ b ≠ "" := by
  intro he
  have hl : (a ++ b).length = 0 := by rw [he]; rfl
  rw [String.length_append] at hl
  omega

/-- The file states the spec's planning-error taxonomy treats as "stage
incomplete": the file is absent, reading it errs, it is not parseable JSON,
or it parses to an empty container / a non-container value. -/
def badFile : FileState → Prop
  | .absent => True
  | .unreadable _ => True
  | .invalid _ => True
  | .jsonVal (.list xs) => xs = []
  | .jsonVal (.dict kvs) => kvs = []
  | .jsonVal _ => True

/-- The artifact path `check_stage_completion` probes for each JSON-backed
stage. -/
def stageArtifact (stage : String) (year : Int) (company_code : String) : String :=
  if stage = "stage2" then get_file_path "P1_JSON" year company_code
  else if stage = "stage3" then get_file_path "NEWS_JSON" year company_code
  else if stage = "stage4" then get_file_path "P2_JSON" year company_code
  else if stage = "stage5" then get_file_path "P3_JSON" year company_code
  else ""

/-- On a bad file state the JSON validity probe reports not-valid. -/
theorem check_json_valid_false_of_bad (fs : FileSystem) (q : String)
    (h : badFile (fs.files q)) : (check_json_valid fs q).1 = false := by
  unfold check_json_valid
  cases hq : fs.files q with
  | absent => rfl
  | unreadable e => rfl
  | invalid e => rfl
  | jsonVal v =>
    rw [hq] at h
    cases v with
    | list xs => simp [badFile] at h; simp [h]
    | dict kvs => simp [badFile] at h; simp [h]
    | str s => rfl
    | num n => rfl
    | bool b => rfl
    | null => rfl

/-- On a bad file state the JSON validity probe's message is non-empty. -/
theorem check_json_valid_msg_of_bad (fs : FileSystem) (q : String)
    (h : badFile (fs.files q)) : (check_json_valid fs q).2 ≠ "" := by
  unfold check_json_valid
  cases hq : fs.files q with
  | absent => exact append_left_ne_empty _ _ (by decide)
  | unreadable e => exact append_left_ne_empty _ _ (by decide)
  | invalid e => exact append_left_ne_empty _ _ (by decide)
  | jsonVal v =>
    rw [hq] at h
    cases v with
    | list xs => simp [badFile] at h; simp [h]
    | dict kvs => simp [badFile] at h; simp [h]
    | str s => simp
    | num n => simp
    | bool b => simp
    | null => simp

/-- **C1.** For every job key and filesystem state, the Resume Planner
evaluates the Checker for each stage in the fixed order `stage1..stage6`
and returns as `resume_from` the first stage in that order the Checker does
not report complete; consequently, whenever a later stage `sj` is reported
complete while an earlier stage `si` is not, the resume point lands at or
before `si` — and equals `si` when every stage before `si` is complete — so
a missing earlier artifact is never skipped because a later one exists. -/
theorem c1_resume_is_first_incomplete (fs : FileSystem) (year : Int)
    (code status : String) :
    ((determine_resume_point fs year code status).resume_from
      = ((stagesList.find?
          (fun s => !(check_stage_completion fs year code s).1)).getD "stage6"))
    ∧ (∀ i j si sj, stagesList.get? i = some si → stagesList.get? j = some sj →
        i < j →
        (check_stage_completion fs year code sj).1 = true →
        (check_stage_completion fs year code si).1 = false →
        (∃ k sk, k ≤ i ∧ stagesList.get? k = some sk ∧
            (check_stage_completion fs year code sk).1 = false ∧
            (determine_resume_point fs year code status).resume_from = sk)
          ∧ ((∀ k sk, k < i → stagesList.get? k = some sk →
                (check_stage_completion fs year code sk).1 = true) →
              (determine_resume_point fs year code status).resume_from = si)) := by
  have hre := resume_eq_find fs year code status
  refine ⟨hre, ?_⟩
  intro i j si sj hgi hgj hij hcj hci
  constructor
  · obtain ⟨k, sk, hk, hget, hpk, hfind⟩ :=
      find_first_failure_le (fun s => (check_stage_completion fs year code s).1)
        stagesList i si hgi hci
    exact ⟨k, sk, hk, hget, hpk, by rw [hre, hfind]; rfl⟩
  · intro hpre
    have hfind :=
      find_first_failure_eq (fun s => (check_stage_completion fs year code s).1)
        stagesList i si hgi hci hpre
    rw [hre, hfind]
    rfl

/-- **C1 witness**: with the report PDF missing but the stage-2 artifact
valid, the never-skip clause of C1 instantiated at `i = 0 < 1 = j` forces
`resume_from = "stage1"`. -/
theorem c1_witness :
    (determine_resume_point fsSkipW 2024 "2330" "stage2").resume_from = "stage1" := by
  have h := (c1_resume_is_first_incomplete fsSkipW 2024 "2330" "stage2").2
    0 1 "stage1" "stage2" rfl rfl (by decide) (by decide) (by decide)
  exact h.2 (fun k sk hk _ => absurd hk (Nat.not_lt_zero k))

/-- **C4 counterexample.** With all artifacts of job (2024, "2330") present
and then only the stage-3 artifact deleted, `completed_stages` is *not*
`{stage1, stage2}` — the still-present later artifacts stage4 and stage5
remain reported complete. -/
theorem c4_counterexample :
    (determine_resume_point fsDel3 2024 "2330" "stage3").completed_stages
      ≠ ["stage1", "stage2"] := by decide

/-- **C4 (amended).** For job (2024, "2330") with all artifacts present and
valid, the planner returns `resume_from = stage6`; after deleting only the
stage-3 artifact it returns `resume_from = stage3` with `completed_stages =
{stage1, stage2, stage4, stage5}` (stages after the gap that still have
valid artifacts stay in the completed set). -/
theorem c4_concrete_scenario :
    (determine_resume_point fsAll 2024 "2330" "stage6").resume_from = "stage6"
    ∧ (determine_resume_point fsDel3 2024 "2330" "stage3").resume_from = "stage3"
    ∧ (determine_resume_point fsDel3 2024 "2330" "stage3").completed_stages
        = ["stage1", "stage2", "stage4", "stage5"] := by
  refine ⟨by decide, by decide, by decide⟩

/-- **C7.** The Checker never raises: for every file state in the spec's
planning-error taxonomy (absent, read error, unparseable JSON, or readable
but empty/non-container content) the JSON artifact probe returns
`completed = false` with a non-empty diagnostic message, and each
JSON-backed stage whose artifact is in such a state is reported
incomplete. -/
theorem c7_checker_never_raises (fs : FileSystem) (year : Int)
    (company_code p : String) (hbad : badFile (fs.files p)) :
    (check_json_valid fs p).1 = false ∧ (check_json_valid fs p).2 ≠ "" ∧
    (∀ s, s ∈ (["stage2", "stage3", "stage4", "stage5"] : List String) →
      badFile (fs.files (stageArtifact s year company_code)) →
      (check_stage_completion fs year company_code s).1 = false) := by
  refine ⟨check_json_valid_false_of_bad fs p hbad,
    check_json_valid_msg_of_bad fs p hbad, ?_⟩
  intro s hs hb
  simp only [List.mem_cons, List.not_mem_nil, or_false] at hs
  rcases hs with rfl | rfl | rfl | rfl
  · simp only [stageArtifact, if_pos rfl] at hb
    simpa [check_stage_completion] using check_json_valid_false_of_bad fs _ hb
  · simp only [stageArtifact] at hb
    norm_num at hb
    simpa [check_stage_completion] using check_json_valid_false_of_bad fs _ hb
  · simp only [stageArtifact] at hb
    norm_num at hb
    simpa [check_stage_completion] using check_json_valid_false_of_bad fs _ hb
  · simp only [stageArtifact] at hb
    norm_num at hb
    simpa [check_stage_completion] using check_json_valid_false_of_bad fs _ hb

/-- **C7 witness**: on a filesystem where every read errs, the probe for a
concrete path reports not-valid with a message. -/
theorem c7_witness :
    (check_json_valid fsBad "temp_data/prompt1_json/2024_2330_p1.json").1 = false
    ∧ (check_json_valid fsBad "temp_data/prompt1_json/2024_2330_p1.json").2 ≠ "" := by
  have h := c7_checker_never_raises fsBad 2024 "2330"
    "temp_data/prompt1_json/2024_2330_p1.json" trivial
  exact ⟨h.1, h.2.1⟩

/-- **C8.** The Resume Planner is deterministic in the caller-supplied prior
status: two calls with the same year, company code and filesystem state but
different `current_status` strings return identical results. -/
theorem c8_status_independent (fs : FileSystem) (year : Int)
    (company_code s1 s2 : String) :
    determine_resume_point fs year company_code s1
      = determine_resume_point fs year company_code s2 := rfl

/-- **C10.** The per-stage check is total over its stage argument (the
embedding is a total function); any string other than `stage1..stage6`
yields `completed = false`, an empty path and the `未知階段` diagnostic, and
whenever `completed` is `false` the returned path is the empty string. -/
theorem c10_stage_check_total (fs : FileSystem) (year : Int)
    (company_code stage : String) :
    (stage ∉ stagesList →
      check_stage_completion fs year company_code stage
        = (false, "", "未知階段: " ++ stage))
    ∧ ((check_stage_completion fs year company_code stage).1 = false →
      (check_stage_completion fs year company_code stage).2.1 = "") := by
  constructor
  · intro h
    simp only [stagesList, List.mem_cons, List.not_mem_nil, or_false, not_or] at h
    obtain ⟨h1, h2, h3, h4, h5, h6⟩ := h
    simp [check_stage_completion, h1, h2, h3, h4, h5, h6]
  · intro h
    unfold check_stage_completion at h ⊢
    split_ifs at h ⊢ <;> simp_all

/-- **C10 witness**: a concrete unknown stage string returns the diagnostic
triple, and a concrete incomplete stage returns an empty path. -/
theorem c10_witness :
    check_stage_completion fsBad 2024 "2330" "stageX"
      = (false, "", "未知階段: stageX")
    ∧ (check_stage_completion fsBad 2024 "2330" "stage2").2.1 = "" := by
  refine ⟨?_, ?_⟩
  · have h := (c10_stage_check_total fsBad 2024 "2330" "stageX").1 (by decide)
    simpa using h
  · exact (c10_stage_check_total fsBad 2024 "2330" "stage2").2 (by decide)

/-!
## Cleanup-loop lemmas
-/

/-- `removeOne` never creates a file. -/
theorem removeOne_absent (fs : FileSystem) (rf : String → Bool) (q x : String)
    (h : fs.files x = .absent) : (removeOne fs rf q).1.files x = .absent := by
  unfold removeOne
  split_ifs with h1 h2
  · exact h
  · simp only
    split_ifs with h3
    · rfl
    · exact h
  · exact h

/-- The cleanup loop never creates a file. -/
theorem cleanupLoop_absent (rf : String → Bool) :
    ∀ (ps : List String) (fs : FileSystem) (x : String),
      fs.files x = .absent → (cleanupLoop rf fs ps).1.files x = .absent := by
  intro ps
  induction ps with
  | nil => intro fs x h; exact h
  | cons q qs ih =>
    intro fs x h
    exact ih (removeOne fs rf q).1 x (removeOne_absent fs rf q x h)

/-- A removable target is absent after `removeOne` runs on it. -/
theorem removeOne_deletes (fs : FileSystem) (rf : String → Bool) (p : String)
    (h : rf p = false) : (removeOne fs rf p).1.files p = .absent := by
  unfold removeOne
  by_cases h1 : pathExists fs p = true
  · simp [h1, h]
  · have habs : fs.files p = .absent := by
      unfold pathExists at h1
      revert h1
      cases hf : fs.files p <;> simp [hf]
    simp [h1, habs]

/-- `removeOne` on another path, or with a failing remove, leaves a path's
state unchanged. -/
theorem removeOne_preserves (fs : FileSystem) (rf : String → Bool) (q p : String)
    (h : rf p = true) : (removeOne fs rf q).1.files p = fs.files p := by
  unfold removeOne
  split_ifs with h1 h2
  · rfl
  · simp only
    split_ifs with h3
    · subst h3
      rw [h] at h2
      exact absurd rfl h2
    · rfl
  · rfl

/-- A path whose removal fails keeps its state across the whole loop. -/
theorem cleanupLoop_preserves (rf : String → Bool) (p : String) (h : rf p = true) :
    ∀ (ps : List String) (fs : FileSystem),
      (cleanupLoop rf fs ps).1.files p = fs.files p := by
  intro ps
  induction ps with
  | nil => intro fs; rfl
  | cons q qs ih =>
    intro fs
    calc (cleanupLoop rf (removeOne fs rf q).1 qs).1.files p
        = (removeOne fs rf q).1.files p := ih (removeOne fs rf q).1
      _ = fs.files p := removeOne_preserves fs rf q p h

/-- A present path in the target list whose removal fails is logged with the
warning line. -/
theorem cleanupLoop_logs (rf : String → Bool) (p : String) (h : rf p = true) :
    ∀ (ps : List String) (fs : FileSystem), p ∈ ps → pathExists fs p = true →
      ("⚠️ 無法刪除 " ++ p) ∈ (cleanupLoop rf fs ps).2 := by
  intro ps
  induction ps with
  | nil => intro fs hm; cases hm
  | cons q qs ih =>
    intro fs hm hex
    by_cases hq : q = p
    · subst hq
      have : removeOne fs rf q = (fs, ["⚠️ 無法刪除 " ++ q]) := by
        unfold removeOne
        rw [hex, h]
        simp
      simp [cleanupLoop, this]
    · have hm' : p ∈ qs := by
        rcases List.mem_cons.mp hm with h' | h'
        · exact absurd h'.symm hq
        · exact h'
      have hex' : pathExists (removeOne fs rf q).1 p = true := by
        unfold pathExists at hex ⊢
        rw [removeOne_preserves fs rf q p h]
        exact hex
      simp only [cleanupLoop]
      exact List.mem_append.mpr (Or.inr (ih (removeOne fs rf q).1 hm' hex'))

/-- Every target in the list with a working remove ends up absent. -/
theorem cleanupLoop_deletes (rf : String → Bool) (p : String) (h : rf p = false) :
    ∀ (ps : List String) (fs : FileSystem), p ∈ ps →
      (cleanupLoop rf fs ps).1.files p = .absent := by
  intro ps
  induction ps with
  | nil => intro fs hm; cases hm
  | cons q qs ih =>
    intro fs hm
    by_cases hq : q = p
    · subst hq
      exact cleanupLoop_absent rf qs (removeOne fs rf q).1 q
        (removeOne_deletes fs rf q h)
    · have hm' : p ∈ qs := by
        rcases List.mem_cons.mp hm with h' | h'
        · exact absurd h'.symm hq
        · exact h'
      exact ih (removeOne fs rf q).1 hm'

/-!
## Orchestrator claim theorems
-/

/-- **C2 (code evaluation at the failing input).** When the mandatory
extraction collaborator raises during stage 2 of a fresh run, the job does
end `failed`, but — contrary to the claim — the failure is *not* re-raised
to the orchestrator at `ai_thread.join()`: execution proceeds through
stages 3, 4 and 5 (their status transitions are persisted and their
collaborators invoked) before the run fails at the persistence step. -/
theorem c2_extraction_failure_executes_later_stages :
    (runAnalysis envExtractFail 2024 "2330" "stage1").outcome.status = "failed"
    ∧ Event.statusUpdate "stage3" ∈
        (runAnalysis envExtractFail 2024 "2330" "stage1").events
    ∧ Event.callNews ∈ (runAnalysis envExtractFail 2024 "2330" "stage1").events
    ∧ Event.statusUpdate "stage4" ∈
        (runAnalysis envExtractFail 2024 "2330" "stage1").events
    ∧ Event.callVerify ∈ (runAnalysis envExtractFail 2024 "2330" "stage1").events
    ∧ Event.statusUpdate "stage5" ∈
        (runAnalysis envExtractFail 2024 "2330" "stage1").events
    ∧ Event.callPplx ∈ (runAnalysis envExtractFail 2024 "2330" "stage1").events := by
  decide

/-- **C3 (code evaluation at the failing inputs).** Two fatal-failure paths
return their `failed` outcome while the Active-Job Registry entry created by
`mark_processing_start` is still in place: the missing-P3 abort at stage 6
and the failed database insert both return without `mark_processing_end`,
so the registry invariant of the claim is violated. -/
theorem c3_registry_entry_leaked_on_fatal_paths :
    ((runAnalysis envP3Missing 2024 "2330" "stage1").outcome.status = "failed"
      ∧ Event.markStart ∈ (runAnalysis envP3Missing 2024 "2330" "stage1").events
      ∧ activeAfter (runAnalysis envP3Missing 2024 "2330" "stage1").events = true)
    ∧ ((runAnalysis envInsertFail 2024 "2330" "stage1").outcome.status = "failed"
      ∧ activeAfter (runAnalysis envInsertFail 2024 "2330" "stage1").events = true) := by
  decide

/-- **C5.** A stage-1 download failure is fatal: the run persists status
`failed`, returns the failure outcome (HTTP 500), executes nothing after the
download call — the entire event trace is the five actions up to the
registry release — and leaves the filesystem untouched, so no artifact for
any stage after stage 1 is produced. -/
theorem c5_download_failure_fatal (env : Env) (year : Int) (company_code : String)
    (h : env.download.1 = false) :
    (runAnalysis env year company_code "stage1").outcome.status = "failed"
    ∧ (runAnalysis env year company_code "stage1").outcome.httpCode = 500
    ∧ (runAnalysis env year company_code "stage1").events
        = [Event.markStart, Event.statusUpdate "stage1", Event.callDownload,
           Event.statusUpdate "failed", Event.markEnd]
    ∧ (runAnalysis env year company_code "stage1").fs = env.fs := by
  refine ⟨?_, ?_, ?_, ?_⟩ <;> simp [runAnalysis, h]

/-- **C5 witness**: the concrete failed-download environment aborts with the
five-action trace. -/
theorem c5_witness :
    (runAnalysis envDownloadFail 2024 "2330" "stage1").outcome.status = "failed"
    ∧ (runAnalysis envDownloadFail 2024 "2330" "stage1").events
        = [Event.markStart, Event.statusUpdate "stage1", Event.callDownload,
           Event.statusUpdate "failed", Event.markEnd] := by
  have h := c5_download_failure_fatal envDownloadFail 2024 "2330" rfl
  exact ⟨h.1, h.2.2.1⟩

/-- **C6.** A news-search failure in stage 3 — a failure result or a raised
exception — is non-fatal: with the download, extraction, persistence and
read-back healthy, the run still reaches `completed`, the pipeline proceeds
to stage 4 (its status transition is persisted and its collaborator
invoked), and status `failed` is never persisted during the run. -/
theorem c6_news_failure_soft (env : Env) (year : Int) (company_code : String)
    (ar : AnalysisResult) (v : PyJson)
    (hnews : (∃ e, env.news = .error e) ∨ (∃ r, env.news = .ok r ∧ r.success = false))
    (hdl : env.download.1 = true)
    (han : env.analysis = .ok ar)
    (hp3 : env.fs.files ("temp_data/prompt3_json/" ++ toString year ++ "_" ++
        company_code ++ "_p3.json") = .jsonVal v)
    (hins : env.insert.1 = true)
    (hq : env.finalQueryCompleted = true) :
    (runAnalysis env year company_code "stage1").outcome.status = "completed"
    ∧ Event.statusUpdate "stage4" ∈ (runAnalysis env year company_code "stage1").events
    ∧ Event.callVerify ∈ (runAnalysis env year company_code "stage1").events
    ∧ Event.statusUpdate "failed" ∉ (runAnalysis env year company_code "stage1").events := by
  simp [runAnalysis, restAfterStage1, stage6Part, Except.toOption,
    hdl, han, hp3, hins, hq]

/-- **C6 witness**: the concrete run whose news collaborator raises still
completes and proceeds to stage 4. -/
theorem c6_witness :
    (runAnalysis envNewsFail 2024 "2330" "stage1").outcome.status = "completed"
    ∧ Event.statusUpdate "stage4" ∈ (runAnalysis envNewsFail 2024 "2330" "stage1").events := by
  have h := c6_news_failure_soft envNewsFail 2024 "2330"
    ⟨some "https://example.com/r.pdf"⟩ (.list [.null])
    (Or.inl ⟨"ConnectionError", rfl⟩) rfl rfl (by rfl) rfl rfl
  exact ⟨h.1, h.2.1⟩

/-- **C9.** Finalization cleanup: every one of the five per-stage temp
artifacts (the report PDF under its canonical name and the four intermediate
JSON files) whose removal succeeds is absent afterwards; a failing removal
leaves the file untouched and logs the warning line instead of escalating
(the loop is total); and after a successful stage 6 with a successful
read-back the run returns `completed` for *every* removal-failure behaviour,
its final filesystem being exactly the cleanup's result. -/
theorem c9_finalization_cleanup (fs : FileSystem) (rf : String → Bool)
    (year : Int) (company_code name : String) (env : Env) (ar : AnalysisResult)
    (v : PyJson)
    (hdl : env.download.1 = true)
    (han : env.analysis = .ok ar)
    (hp3 : env.fs.files ("temp_data/prompt3_json/" ++ toString year ++ "_" ++
        company_code ++ "_p3.json") = .jsonVal v)
    (hins : env.insert.1 = true)
    (hq : env.finalQueryCompleted = true) :
    (∀ p ∈ cleanupTargets year company_code name, rf p = false →
        (cleanup_temp_files fs rf year company_code name).1.files p = .absent)
    ∧ (∀ p, rf p = true →
        (cleanup_temp_files fs rf year company_code name).1.files p = fs.files p)
    ∧ (∀ p ∈ cleanupTargets year company_code name, rf p = true →
        pathExists fs p = true →
        ("⚠️ 無法刪除 " ++ p) ∈ (cleanup_temp_files fs rf year company_code name).2)
    ∧ ((runAnalysis env year company_code "stage1").outcome.status = "completed"
        ∧ Event.runCleanup ∈ (runAnalysis env year company_code "stage1").events
        ∧ (runAnalysis env year company_code "stage1").fs
            = (cleanup_temp_files env.fs env.removeFails year company_code
                env.companyName).1) := by
  refine ⟨?_, ?_, ?_, ?_⟩
  · intro p hp hrf
    exact cleanupLoop_deletes rf p hrf _ fs hp
  · intro p hrf
    exact cleanupLoop_preserves rf p hrf _ fs
  · intro p hp hrf hex
    exact cleanupLoop_logs rf p hrf _ fs hp hex
  · simp [runAnalysis, restAfterStage1, stage6Part, Except.toOption,
      hdl, han, hp3, hins, hq]

/-- **C9 witness**: the healthy concrete run completes with cleanup in its
trace, and the cleanup on `fsAll` with all removes working deletes the
stage-2 artifact. -/
theorem c9_witness :
    (runAnalysis envHappy 2024 "2330" "stage1").outcome.status = "completed"
    ∧ (cleanup_temp_files fsAll (fun _ => false) 2024 "2330" "台積電").1.files
        "temp_data/prompt1_json/2024_2330_p1.json" = .absent := by
  have h := c9_finalization_cleanup fsAll (fun _ => false) 2024 "2330" "台積電"
    envHappy ⟨some "https://example.com/r.pdf"⟩ (.list [.null])
    rfl rfl (by rfl) rfl rfl
  exact ⟨h.2.2.2.1, h.1 "temp_data/prompt1_json/2024_2330_p1.json" (by decide) rfl⟩

end GWD
